import Mathlib

/-!
Verification of the BYOC stream SDK client library (shallow embedding).

Each definition in this file is a direct translation of a function or class
of the TypeScript source into Lean:

* pure helpers become Lean functions;
* stateful classes (the `Stream` publisher, the `DataStreamClient`) become
  explicit state records plus state-transition functions;
* network effects (`fetch`, SSE message delivery) are externalized: the
  transition function takes the outcome of the external call as an argument
  (an `Except` value, or a response record), so a single invocation of the
  Lean function corresponds to one run of the TypeScript code under a fixed
  behaviour of the outside world;
* thrown JavaScript errors become `Except.error` values carrying the same
  message strings the source constructs.

JavaScript numeric operations on the values involved here (integer byte and
frame counters, millisecond timestamps) are exact in IEEE doubles at the
magnitudes the SDK handles, so they are modelled with `Int`/`Rat` and
`Math.round` with rounding half towards positive infinity.
-/

namespace ByocSdk

/-- JavaScript `Math.round`: rounds to the nearest integer, halves toward
positive infinity, i.e. `⌊x + 1/2⌋`. -/
def jsRound (q : ℚ) : ℤ := ⌊q + 1/2⌋

/-- Model of a parsed JSON value (the payloads carried by update parameters
and SSE messages).  The SDK never looks inside nested structure — update
parameter values are forwarded opaquely and an SSE payload is only probed for
its `type` field (modelled separately) — so atomic values suffice here. -/
inductive JsonVal where
  | str (s : String)
  | num (n : ℤ)
  | boolVal (b : Bool)
  | null
deriving DecidableEq, Repr

/-! ## Retry controller (`src/utils/retry.ts`)

`retryWithBackoff` runs `fn` up to `maxRetries` times.  The effectful
`fn : () => Promise<T>` is modelled as a map from the attempt number (1-based)
to the outcome of that invocation.  A thrown error is a `RetryError`; its
`nonRetryable` field models the dynamically attached `nonRetryable` marker
the transport clients set on errors.  Alongside the result we return the
number of times `fn` was invoked. -/

/-- Model of an `Error` object as thrown/caught inside `retryWithBackoff`:
the message plus the optional `nonRetryable` marker (absent ≡ `false`). -/
structure RetryError where
  message : String
  nonRetryable : Bool := false
deriving DecidableEq, Repr

/-- Delay computed before the next retry:
`Math.min(initialDelay * backoffMultiplier ** (attempt - 1), maxDelay)`.
It only affects timing, never the result, and is recorded here for
completeness of the embedding. -/
def retryDelay (initialDelay maxDelay backoffMultiplier : ℚ) (attempt : ℕ) : ℚ :=
  min (initialDelay * backoffMultiplier ^ (attempt - 1)) maxDelay

/-- Body of the `for (let attempt = 1; attempt <= maxRetries; attempt++)`
loop of `retryWithBackoff`.  `remaining` is the number of loop iterations the
loop condition still allows, i.e. `maxRetries - attempt + 1` (clamped at 0);
it only drives the structural recursion and the `remaining = 0` case is the
loop exiting without a body run, where the source throws
`lastError || new Error('All retry attempts failed')` — reachable only when
the loop body never ran, so `lastError` is undefined. -/
def retryGo (fn : ℕ → Except RetryError α) (maxRetries : ℕ) :
    ℕ → ℕ → Except RetryError α × ℕ
  | _attempt, 0 => (.error ⟨"All retry attempts failed", false⟩, 0)
  | attempt, remaining + 1 =>
    match fn attempt with
    | .ok t => (.ok t, 1)
    | .error e =>
      -- the error has been marked as non-retryable: rethrow immediately
      if e.nonRetryable then (.error e, 1)
      else if attempt = maxRetries then (.error e, 1)
      else
        let r := retryGo fn maxRetries (attempt + 1) remaining
        (r.1, r.2 + 1)

/-- Model of `retryWithBackoff(fn, { maxRetries })`: the final outcome and
the exact number of invocations of `fn`. -/
def retryWithBackoff (fn : ℕ → Except RetryError α) (maxRetries : ℕ := 3) :
    Except RetryError α × ℕ :=
  retryGo fn maxRetries 1 maxRetries

/-! ## HTTP model

A `fetch` call either throws (network layer) or yields a response.  Headers
are an association list queried by `Headers.get`-style lookup; an absent
header yields `none` (JavaScript `null`).  `bodyReadable` models whether
`response.text()` succeeds (the error paths guard it with `try`/`catch`). -/

/-- Subset of a `fetch` `Response` the SDK reads. -/
structure HttpResponse where
  status : ℕ
  body : String := ""
  bodyReadable : Bool := true
  headers : List (String × String) := []
deriving DecidableEq, Repr

/-- JavaScript `Response.ok`: status in the inclusive range 200–299. -/
def HttpResponse.ok (r : HttpResponse) : Bool :=
  200 ≤ r.status && r.status ≤ 299

/-- Lookup of `response.headers.get(name)`: the header value, or `none` when
the header is absent. -/
def headerGet (headers : List (String × String)) (name : String) : Option String :=
  (headers.find? (fun p => p.1 = name)).map (fun p => p.2)

/-- Outcome of one `fetch` call: a thrown network-layer error (its message),
or a response. -/
abbrev FetchOutcome : Type := Except String HttpResponse

/-- Shape of an outgoing request, for claims about what is sent. -/
structure HttpRequest where
  url : String
  method : String
  body : Option String := none
  headers : List (String × String) := []
deriving DecidableEq, Repr

/-- Boolean substring test, modelling JavaScript `String.prototype.includes`
on the character list of a string. -/
def charsContain (pat : List Char) : List Char → Bool
  | [] => pat.isEmpty
  | c :: cs => pat.isPrefixOf (c :: cs) || charsContain pat cs

/-- String form of `charsContain`: does `s` contain `pat` as a substring? -/
def strIncludes (s pat : String) : Bool := charsContain pat.data s.data

/-! ## WHIP transport client (`sendWhipOffer`)

The inner async closure handed to `retryWithBackoff` is modelled by
`whipAttempt`, a function of the `fetch` outcome for that attempt.  The
source marks a thrown fetch error whose message contains `'Network'` as
non-retryable, and a 4xx response error as non-retryable. -/

/-- Response record of a successful WHIP offer (`WhipOfferResponse`). -/
structure WhipOfferResponse where
  status : ℕ
  answerSdp : String
  locationHeader : Option String
  eTagHeader : Option String
  linkHeader : Option String
  playbackUrl : Option String
deriving DecidableEq, Repr

/-- Error message built for a non-201 WHIP response: embeds the status and,
when the body could be read and is non-empty, the body. -/
def whipErrorMessage (r : HttpResponse) : String :=
  let errorBody := if r.bodyReadable then r.body else ""
  if errorBody ≠ "" then
    "WHIP offer failed. Status: " ++ toString r.status ++ ", Response: " ++ errorBody
  else
    "WHIP offer failed. Status: " ++ toString r.status

/-- One attempt of `sendWhipOffer` (the closure passed to the retry wrapper),
as a function of the `fetch` outcome. -/
def whipAttempt (fr : FetchOutcome) : Except RetryError WhipOfferResponse :=
  match fr with
  | .error m =>
    -- fetch threw: errors mentioning 'Network' are marked non-retryable
    .error ⟨m, strIncludes m "Network"⟩
  | .ok r =>
    if r.status = 201 then
      .ok { status := r.status
            answerSdp := r.body
            locationHeader := headerGet r.headers "Location"
            eTagHeader := headerGet r.headers "ETag"
            linkHeader := headerGet r.headers "Link"
            playbackUrl := headerGet r.headers "Livepeer-Playback-Url" }
    else
      -- client errors (4xx) are marked non-retryable
      .error ⟨whipErrorMessage r, decide (400 ≤ r.status ∧ r.status < 500)⟩

/-- Full `sendWhipOffer`: the per-attempt closure wrapped in
`retryWithBackoff` with the caller-tunable attempt count (default 3).
`fetches` gives the `fetch` outcome of each attempt. -/
def sendWhipOffer (fetches : ℕ → FetchOutcome) (maxRetries : ℕ := 3) :
    Except RetryError WhipOfferResponse × ℕ :=
  retryWithBackoff (fun attempt => whipAttempt (fetches attempt)) maxRetries

/-! ## WHEP transport client (`sendWhepOffer`)

Mirrors the WHIP client; the success test is `response.ok` (any 2xx) and only
the `Location` header is read. -/

/-- Response record of a successful WHEP offer (`WhepOfferResponse`). -/
structure WhepOfferResponse where
  status : ℕ
  answerSdp : String
  locationHeader : Option String
deriving DecidableEq, Repr

/-- Error message built for a non-2xx WHEP response. -/
def whepErrorMessage (r : HttpResponse) : String :=
  let errorBody := if r.bodyReadable then r.body else ""
  if errorBody ≠ "" then
    "WHEP offer failed. Status: " ++ toString r.status ++ ", Response: " ++ errorBody
  else
    "WHEP offer failed. Status: " ++ toString r.status

/-- One attempt of `sendWhepOffer`, as a function of the `fetch` outcome. -/
def whepAttempt (fr : FetchOutcome) : Except RetryError WhepOfferResponse :=
  match fr with
  | .error m =>
    .error ⟨m, strIncludes m "Network"⟩
  | .ok r =>
    if r.ok then
      .ok { status := r.status
            answerSdp := r.body
            locationHeader := headerGet r.headers "Location" }
    else
      .error ⟨whepErrorMessage r, decide (400 ≤ r.status ∧ r.status < 500)⟩

/-- Full `sendWhepOffer` under the retry wrapper. -/
def sendWhepOffer (fetches : ℕ → FetchOutcome) (maxRetries : ℕ := 3) :
    Except RetryError WhepOfferResponse × ℕ :=
  retryWithBackoff (fun attempt => whepAttempt (fetches attempt)) maxRetries

/-! ## Control-plane stop (`stopStream` in `src/api/start.ts`) -/

/-- Request issued by `stopStream`: a POST to `stopUrl` with no body and no
explicit headers. -/
def stopStreamRequest (stopUrl : String) : HttpRequest :=
  { url := stopUrl, method := "POST" }

/-- Error message built for a non-2xx, non-404 stop response. -/
def stopStreamErrorMessage (r : HttpResponse) : String :=
  let errorBody := if r.bodyReadable then r.body else ""
  if errorBody ≠ "" then
    "Failed to stop stream (" ++ toString r.status ++ "): " ++ errorBody
  else
    "Failed to stop stream (" ++ toString r.status ++ ")"

/-- Result of `stopStream` as a function of the `fetch` outcome: `ok` → true,
404 → false (already stopped, idempotent), anything else throws; the outer
`catch` only logs and rethrows, so a network error propagates unchanged. -/
def stopStream (fr : FetchOutcome) : Except String Bool :=
  match fr with
  | .error m => .error m
  | .ok r =>
    if r.ok then .ok true
    else if r.status = 404 then .ok false
    else .error (stopStreamErrorMessage r)

/-! ## Session descriptor and configuration (`types.ts`, class `StreamConfig`)

`StreamStartResponse` is the server-issued session descriptor.  The
`StreamConfig` getters return the stored field of the recorded descriptor
verbatim, or the empty string when no descriptor has been recorded
(`this.streamStartResponse?.field ?? ""`). -/

/-- Server-issued record of a started stream (`StreamStartResponse`). -/
structure StreamStartResponse where
  streamId : String
  whipUrl : String
  whepUrl : String
  rtmpUrl : String
  rtmpOutputUrl : String
  updateUrl : String
  statusUrl : String
  dataUrl : String
  stopUrl : String
deriving DecidableEq, Repr

/-- The `StreamConfig` class: immutable construction data plus the fields a
publisher session writes back (the latest descriptor and the WHIP signaling
metadata). -/
structure StreamConfig where
  gatewayUrl : String
  defaultPipeline : Option String := none
  streamStartResponse : Option StreamStartResponse := none
  location : String := ""
  playbackUrl : String := ""
  link : String := ""
  eTag : String := ""
deriving DecidableEq, Repr

/-- Getter `getStreamStartUrl`: a fixed path under the gateway base. -/
def StreamConfig.getStreamStartUrl (c : StreamConfig) : String :=
  c.gatewayUrl ++ "/process/stream/start"

/-- Getter `getStreamStopUrl`. -/
def StreamConfig.getStreamStopUrl (c : StreamConfig) : String :=
  match c.streamStartResponse with
  | some r => r.stopUrl
  | none => ""

/-- Getter `getWhipUrl`. -/
def StreamConfig.getWhipUrl (c : StreamConfig) : String :=
  match c.streamStartResponse with
  | some r => r.whipUrl
  | none => ""

/-- Getter `getWhepUrl`. -/
def StreamConfig.getWhepUrl (c : StreamConfig) : String :=
  match c.streamStartResponse with
  | some r => r.whepUrl
  | none => ""

/-- Getter `getDataUrl`. -/
def StreamConfig.getDataUrl (c : StreamConfig) : String :=
  match c.streamStartResponse with
  | some r => r.dataUrl
  | none => ""

/-- Getter `getStatusUrl`. -/
def StreamConfig.getStatusUrl (c : StreamConfig) : String :=
  match c.streamStartResponse with
  | some r => r.statusUrl
  | none => ""

/-- Getter `getUpdateUrl`. -/
def StreamConfig.getUpdateUrl (c : StreamConfig) : String :=
  match c.streamStartResponse with
  | some r => r.updateUrl
  | none => ""

/-- Getter `getRtmpUrl`. -/
def StreamConfig.getRtmpUrl (c : StreamConfig) : String :=
  match c.streamStartResponse with
  | some r => r.rtmpUrl
  | none => ""

/-- Getter `getRtmpOutputUrl`. -/
def StreamConfig.getRtmpOutputUrl (c : StreamConfig) : String :=
  match c.streamStartResponse with
  | some r => r.rtmpOutputUrl
  | none => ""

/-! ## Error objects of the SDK (`types.ts`)

`StreamError` carries a message and an optional machine-checkable code;
`ConnectionError` and `MediaError` are `StreamError`s with fixed codes. -/

/-- Model of a thrown `StreamError` (and its subclasses, distinguished by
their fixed `code`). -/
structure SdkError where
  message : String
  code : Option String := none
deriving DecidableEq, Repr

/-- Errors thrown inside `Stream.start` before the `catch`: either already a
`StreamError` (rethrown as is) or a plain `Error` (wrapped). -/
inductive JsThrown where
  | sdk (e : SdkError)
  | plain (message : String)
deriving DecidableEq, Repr

/-- Wrapping applied in the `catch` of `Stream.start`:
`error instanceof StreamError ? error : new ConnectionError('Failed to start stream', error)`. -/
def wrapStartError (e : JsThrown) : SdkError :=
  match e with
  | .sdk e => e
  | .plain _ => { message := "Failed to start stream", code := some "CONNECTION_ERROR" }

/-! ## Publisher session (class `Stream`)

The mutable fields of a `Stream` instance.  The peer connection, local media
stream and stats timer are external resources; the state tracks whether the
instance currently holds one (`true` = a live handle is stored, `false` =
the field is `null`). -/

/-- Connection status enumeration. -/
inductive ConnectionStatus where
  | disconnected
  | connecting
  | connected
  | error
deriving DecidableEq, Repr

/-- Running snapshot `lastStats` used for stats delta computation:
timestamp (ms), cumulative bytes sent, `frameTime` (always written 0), and
cumulative encoded frame count. -/
structure LastStats where
  time : ℤ
  bytes : ℤ
  frameTime : ℤ
  frameCount : ℤ
deriving DecidableEq, Repr

/-- Mutable instance state of a `Stream` publisher. -/
structure PubState where
  connectionStatus : ConnectionStatus := .disconnected
  streamInfo : Option StreamStartResponse := none
  currentPipeline : Option String := none
  statsInterval : Bool := false
  peerConnection : Bool := false
  localStream : Bool := false
  configResp : Option StreamStartResponse := none
deriving DecidableEq, Repr

/-- External teardown effects performed by `Stream.cleanup`, in source
order: clear the stats timer, close the peer connection, stop every local
media track.  Each is performed exactly when the corresponding handle was
held. -/
inductive CleanupAction where
  | clearStatsTimer
  | closePeerConnection
  | stopLocalTracks
deriving DecidableEq, Repr

/-- Model of `Stream.cleanup`: clears the stats timer, closes and nulls the
peer connection, stops and nulls the local tracks, nulls the stream
descriptor, sets status `disconnected` and clears the current pipeline.
Returns the new state and the external actions performed. -/
def Stream.cleanup (st : PubState) : PubState × List CleanupAction :=
  ({ st with
      statsInterval := false
      peerConnection := false
      localStream := false
      streamInfo := none
      connectionStatus := .disconnected
      currentPipeline := none },
   (if st.statsInterval then [CleanupAction.clearStatsTimer] else []) ++
   (if st.peerConnection then [CleanupAction.closePeerConnection] else []) ++
   (if st.localStream then [CleanupAction.stopLocalTracks] else []))

/-- Error thrown by the already-active guard of `Stream.start`. -/
def alreadyActiveError : SdkError :=
  { message := "Stream is already active. Stop the current stream first." }

/-- Model of `Stream.start`.  The session-provisioning HTTP call
(`startStream` against the gateway) is externalized as `outcome`.  On the
guard path nothing changes; on success the descriptor is recorded (also into
the shared config) and stats monitoring begins; on failure the status passes
through `'error'`, the error is wrapped, and full cleanup runs before the
rejection is delivered.  Returns the final state, the cleanup actions
performed, and the settled result. -/
def Stream.start (st : PubState) (pipeline : String)
    (outcome : Except JsThrown StreamStartResponse) :
    PubState × List CleanupAction × Except SdkError StreamStartResponse :=
  if st.connectionStatus ≠ .disconnected then
    (st, [], .error alreadyActiveError)
  else
    match outcome with
    | .ok initData =>
      ({ st with
          connectionStatus := .connected
          currentPipeline := some pipeline
          streamInfo := some initData
          configResp := some initData
          statsInterval := true },
       [], .ok initData)
    | .error e =>
      let failed : PubState :=
        { st with connectionStatus := .error, currentPipeline := some pipeline }
      let cleaned := Stream.cleanup failed
      (cleaned.1, cleaned.2, .error (wrapStartError e))

/-! ## Update path (`Stream.update` and `sendStreamUpdate`)

Update parameters are a JavaScript record, modelled as an association list
with distinct keys in insertion order.  `Stream.update` strips the immutable
fields, rejects when nothing mutable remains, resolves the pipeline, and
otherwise issues exactly one network call; the call's arguments are returned
as an `UpdateCall` record, so `Except.error` means no network call was
issued. -/

/-- Update parameter record: keys in insertion order. -/
abbrev UpdateParams : Type := List (String × JsonVal)

/-- Immutable fields stripped from updates: width/height require restarting
the underlying transport session. -/
def immutableFields : List String := ["width", "height"]

/-- The stripping loop of `Stream.update`: for each immutable field present
in the record, delete it and record its name.  Returns the sanitized record
and the removed field names. -/
def stripImmutable (params : UpdateParams) : UpdateParams × List String :=
  immutableFields.foldl
    (fun (acc : UpdateParams × List String) field =>
      if acc.1.any (fun p => p.1 = field) then
        (acc.1.filter (fun p => p.1 ≠ field), acc.2 ++ [field])
      else acc)
    (params, [])

/-- Error thrown when nothing mutable remains after stripping. -/
def invalidUpdateParamsError : SdkError :=
  { message := "No mutable parameters provided for update. Restart the stream to change resolution."
    code := some "INVALID_UPDATE_PARAMS" }

/-- Error thrown by `resolveActivePipeline` when no pipeline is configured. -/
def noPipelineError (action : String) : SdkError :=
  { message := "No pipeline configured for " ++ action ++
      ". Provide config.defaultPipeline or include a pipeline when starting the stream." }

/-- Model of `resolveActivePipeline`:
`this.currentPipeline || this.config.defaultPipeline`, throwing when the
result is falsy (absent or the empty string). -/
def resolveActivePipeline (current defaultPipeline : Option String)
    (action : String) : Except SdkError String :=
  let pipeline :=
    match current with
    | some s => if s = "" then defaultPipeline else some s
    | none => defaultPipeline
  match pipeline with
  | some s => if s = "" then .error (noPipelineError action) else .ok s
  | none => .error (noPipelineError action)

/-- Arguments of the one `sendStreamUpdate` network call `Stream.update`
issues: the endpoint, the session id, the resolved pipeline (in the signed
capability header), and the request body — `JSON.stringify` of exactly the
sanitized parameter record. -/
structure UpdateCall where
  url : String
  streamId : String
  pipeline : String
  params : UpdateParams
deriving DecidableEq, Repr

/-- Error thrown by the active-stream guard of `Stream.update`. -/
def noActiveStreamError : SdkError := { message := "No active stream to update" }

/-- Model of `Stream.update` up to the point the network call is issued.
`Except.ok call` means exactly one `sendStreamUpdate(call)` was issued;
`Except.error e` means the method rejected with `e` and no network call was
made (every throw in the source precedes `sendStreamUpdate`). -/
def Stream.update (st : PubState) (defaultPipeline : Option String)
    (params : UpdateParams) : Except SdkError UpdateCall :=
  match st.streamInfo with
  | none => .error noActiveStreamError
  | some info =>
    if info.updateUrl = "" ∨ info.streamId = "" then .error noActiveStreamError
    else
      let sanitized := (stripImmutable params).1
      if sanitized.isEmpty then .error invalidUpdateParamsError
      else
        match resolveActivePipeline st.currentPipeline defaultPipeline "update" with
        | .error e => .error e
        | .ok pipeline => .ok ⟨info.updateUrl, info.streamId, pipeline, sanitized⟩

/-! ## Stats sampling (`Stream.parseStats`)

The per-tick stats parser walks the RTC stats report; for each
`outbound-rtp`/`video` entry it computes the byte and frame deltas against
`lastStats` (skipped when there is no prior sample, i.e. `lastStats.time`
is 0), overwrites `lastStats`, and records the current resolution when the
entry carries non-zero frame dimensions. -/

/-- Subset of one RTC stats entry the parser reads; absent fields are
`none` (JavaScript `undefined`, falsy). -/
structure RtcStat where
  type : String
  kind : String
  bytesSent : Option ℤ := none
  framesEncoded : Option ℤ := none
  frameWidth : Option ℕ := none
  frameHeight : Option ℕ := none
deriving DecidableEq, Repr

/-- Stats snapshot emitted each tick (`ConnectionStats`). -/
structure ConnectionStats where
  bitrate : ℤ
  fps : ℤ
  resolution : String
  streamId : Option String
deriving DecidableEq, Repr

/-- Accumulator of the `stats.forEach` loop: the three locals plus the
instance field `lastStats` it overwrites. -/
structure ParseAcc where
  bitrate : ℤ
  fps : ℤ
  resolution : String
  last : LastStats
deriving DecidableEq, Repr

/-- Body of the `stats.forEach` loop of `parseStats`, for one entry.
`now` is `Date.now()` at the tick. -/
def parseStatsStep (now : ℤ) (acc : ParseAcc) (stat : RtcStat) : ParseAcc :=
  if stat.type = "outbound-rtp" ∧ stat.kind = "video" then
    let bytes : ℤ := stat.bytesSent.getD 0
    let frameCount : ℤ := stat.framesEncoded.getD 0
    let acc1 :=
      if 0 < acc.last.time then
        let timeDelta : ℚ := ((now : ℚ) - (acc.last.time : ℚ)) / 1000
        if 0 < timeDelta then
          { acc with
              bitrate := jsRound ((((bytes : ℚ) - (acc.last.bytes : ℚ)) * 8) / timeDelta / 1000)
              fps := jsRound (((frameCount : ℚ) - (acc.last.frameCount : ℚ)) / timeDelta) }
        else acc
      else acc
    let acc2 := { acc1 with last := ⟨now, bytes, 0, frameCount⟩ }
    if stat.frameWidth.getD 0 ≠ 0 ∧ stat.frameHeight.getD 0 ≠ 0 then
      { acc2 with
          resolution := toString (stat.frameWidth.getD 0) ++ "x" ++
            toString (stat.frameHeight.getD 0) }
    else acc2
  else acc

/-- Model of `Stream.parseStats`: folds the report entries, then builds the
emitted snapshot — `streamId` is `this.streamInfo?.streamId || null`, so an
absent descriptor or an empty id both yield `null`.  Returns the snapshot
and the overwritten `lastStats`. -/
def Stream.parseStats (streamInfo : Option StreamStartResponse)
    (last : LastStats) (now : ℤ) (stats : List RtcStat) :
    ConnectionStats × LastStats :=
  let acc := stats.foldl (parseStatsStep now) ⟨0, 0, "", last⟩
  let sid :=
    match streamInfo with
    | some i => if i.streamId = "" then none else some i.streamId
    | none => none
  (⟨acc.bitrate, acc.fps, acc.resolution, sid⟩, acc.last)

/-! ## Data stream session (class `DataStreamClient`)

One SSE connection per `connect()` call.  `JSON.parse` is a browser
capability, so an incoming message is modelled by its parse outcome: a
parsed object (its optional `type` field plus the payload) or a parse
failure (the raw text and the parse error message).  Every message appends
exactly one log entry; the oldest entry is shifted off when the bound is
exceeded. -/

/-- Payload stored in a log entry: the parsed object, or the
`{ raw, error }` record built on parse failure. -/
inductive DataVal where
  | json (typeField : Option String) (payload : JsonVal)
  | rawErr (raw : String) (errMsg : String)
deriving DecidableEq, Repr

/-- One log entry (`DataLog`). -/
structure DataLog where
  id : String
  type : String
  data : DataVal
  timestamp : ℤ
  expanded : Bool
deriving DecidableEq, Repr

/-- Parse outcome of one SSE message (`JSON.parse(event.data.trim())`):
success carries the object's optional `type` field (`none` when absent;
an empty string is falsy and also falls back to `'data'`) and the payload;
failure carries the raw event text and the parse error message. -/
inductive SseParse where
  | parsed (typeField : Option String) (payload : JsonVal)
  | failed (raw : String) (errMsg : String)
deriving DecidableEq, Repr

/-- Mutable instance state of a `DataStreamClient`. -/
structure DataStreamState where
  isConnected : Bool := false
  hasEventSource : Bool := false
  logs : List DataLog := []
  maxLogs : ℕ := 1000
  logCounter : ℕ := 0
deriving DecidableEq, Repr

/-- Push step shared by both message branches:
`this.logs.push(log); if (this.logs.length > this.maxLogs) this.logs.shift()`. -/
def pushLog (st : DataStreamState) (log : DataLog) : DataStreamState :=
  let logs := st.logs ++ [log]
  { st with logs := if st.maxLogs < logs.length then logs.tail else logs }

/-- The log entry built for one message: id `data-<counter>`; on success the
type is `data.type || 'data'` and the data the parsed object; on parse
failure the type is `'raw'` and the data the `{ raw, error }` record. -/
def DataStreamClient.mkLog (counter : ℕ) (m : SseParse) (now : ℤ) : DataLog :=
  match m with
  | .parsed typeField payload =>
    { id := "data-" ++ toString counter
      type := match typeField with
              | some s => if s = "" then "data" else s
              | none => "data"
      data := .json typeField payload
      timestamp := now
      expanded := true }
  | .failed raw errMsg =>
    { id := "data-" ++ toString counter
      type := "raw"
      data := .rawErr raw errMsg
      timestamp := now
      expanded := true }

/-- The `onmessage` handler: build the entry for the message (incrementing
the id counter), append it, and evict the oldest entry when the bound is
exceeded.  Both the success and the parse-failure branch follow the same
shape. -/
def DataStreamClient.onMessage (st : DataStreamState) (m : SseParse)
    (now : ℤ) : DataStreamState :=
  pushLog { st with logCounter := st.logCounter + 1 }
    (DataStreamClient.mkLog st.logCounter m now)

/-- Message of the error thrown by the already-connected guard of
`DataStreamClient.connect`. -/
def alreadyConnectedMessage : String := "Already connected to data stream"

/-- Model of `DataStreamClient.connect` up to the creation of the
`EventSource`: rejected when a connection already exists (`isConnected` is
still false until `onopen` fires, but the `EventSource` handle is set
synchronously); otherwise `maxLogs` is overridden when supplied and the
`EventSource` is created. -/
def DataStreamClient.connect (st : DataStreamState) (maxLogsOpt : Option ℕ) :
    DataStreamState × Except String Unit :=
  if st.isConnected || st.hasEventSource then
    (st, .error alreadyConnectedMessage)
  else
    ({ st with
        maxLogs := maxLogsOpt.getD st.maxLogs
        hasEventSource := true },
     .ok ())

/-- Model of `DataStreamClient.disconnect`: close and null the
`EventSource`, mark not connected. -/
def DataStreamClient.disconnect (st : DataStreamState) : DataStreamState :=
  { st with hasEventSource := false, isConnected := false }

/-! # Theorems -/

/-! ## Retry controller lemmas (shared helpers) -/

/-- When every attempt fails retryably, the loop runs to `maxRetries` and
rethrows the last error. -/
lemma retryGo_allFail {α : Type} (fn : ℕ → Except RetryError α)
    (e : ℕ → RetryError) (maxRetries : ℕ)
    (hf : ∀ k, fn k = .error (e k)) (hnr : ∀ k, (e k).nonRetryable = false) :
    ∀ rem a, 1 ≤ a → a ≤ maxRetries → a + rem = maxRetries + 1 →
      retryGo fn maxRetries a rem = (.error (e maxRetries), rem) := by
  intro rem
  induction rem with
  | zero => intro a _ ha2 ha3; omega
  | succ rem ih =>
    intro a ha1 ha2 ha3
    by_cases heq : a = maxRetries
    · subst heq
      have hrem : rem = 0 := by omega
      subst hrem
      simp [retryGo, hf a, hnr a]
    · have hrec := ih (a + 1) (by omega) (by omega) (by omega)
      simp [retryGo, hf a, hnr a, heq, hrec]

/-- When attempts before `j` fail retryably and attempt `j` throws a
non-retryable error, the loop stops at `j` and rethrows that error. -/
lemma retryGo_nonRetryable {α : Type} (fn : ℕ → Except RetryError α)
    (e : ℕ → RetryError) (maxRetries j : ℕ)
    (hlt : ∀ k, 1 ≤ k → k < j → fn k = .error (e k) ∧ (e k).nonRetryable = false)
    (hj : fn j = .error (e j)) (hjn : (e j).nonRetryable = true)
    (hjm : j ≤ maxRetries) :
    ∀ rem a, 1 ≤ a → a ≤ j → a + rem = maxRetries + 1 →
      retryGo fn maxRetries a rem = (.error (e j), j - a + 1) := by
  intro rem
  induction rem with
  | zero => intro a _ ha2 ha3; omega
  | succ rem ih =>
    intro a ha1 ha2 ha3
    by_cases heq : a = j
    · subst heq
      simp [retryGo, hj, hjn]
    · have hak := hlt a (by omega) (by omega)
      have hne : a ≠ maxRetries := by omega
      have hrec := ih (a + 1) (by omega) (by omega) (by omega)
      simp [retryGo, hak.1, hak.2, hne, hrec]
      omega

/-- **C2.** Retry termination: with `maxRetries ≥ 1`, an operation failing
with a retryable error on every attempt is invoked exactly `maxRetries`
times and the call rejects with the last thrown error unchanged; an
operation whose `j`-th invocation throws a non-retryable error after `j - 1`
retryable failures is invoked exactly `j` times and that error is rethrown
immediately. -/
theorem retry_termination {α : Type} (fn : ℕ → Except RetryError α)
    (e : ℕ → RetryError) (maxRetries : ℕ) (hmr : 1 ≤ maxRetries) :
    ((∀ k, fn k = .error (e k) ∧ (e k).nonRetryable = false) →
      retryWithBackoff fn maxRetries = (.error (e maxRetries), maxRetries)) ∧
    (∀ j, 1 ≤ j → j ≤ maxRetries →
      (∀ k, 1 ≤ k → k < j → fn k = .error (e k) ∧ (e k).nonRetryable = false) →
      fn j = .error (e j) → (e j).nonRetryable = true →
      retryWithBackoff fn maxRetries = (.error (e j), j)) := by
  constructor
  · intro h
    have := retryGo_allFail fn e maxRetries (fun k => (h k).1) (fun k => (h k).2)
      maxRetries 1 le_rfl hmr (by omega)
    simpa [retryWithBackoff] using this
  · intro j hj1 hj2 hlt hj hjn
    have := retryGo_nonRetryable fn e maxRetries j hlt hj hjn hj2
      maxRetries 1 le_rfl hj1 (by omega)
    have hcount : j - 1 + 1 = j := by omega
    rw [hcount] at this
    simpa [retryWithBackoff] using this

/-- Witness for C2 at concrete inputs: three attempts all failing with the
same retryable error are invoked 3 times and reject with it; a first-attempt
non-retryable error is invoked exactly once. -/
theorem retry_termination_witness :
    retryWithBackoff (fun _ => (.error ⟨"boom", false⟩ : Except RetryError ℕ)) 3 =
      (.error ⟨"boom", false⟩, 3) ∧
    retryWithBackoff (fun _ => (.error ⟨"bad", true⟩ : Except RetryError ℕ)) 3 =
      (.error ⟨"bad", true⟩, 1) := by
  constructor
  · exact (retry_termination (fun _ => .error ⟨"boom", false⟩)
      (fun _ => ⟨"boom", false⟩) 3 (by decide)).1 (fun k => ⟨rfl, rfl⟩)
  · exact (retry_termination (fun _ => .error ⟨"bad", true⟩)
      (fun _ => ⟨"bad", true⟩) 3 (by decide)).2 1 (by decide) (by decide)
      (fun k hk1 hk2 => by omega) rfl rfl

/-! ## Single active session (C1) and start-failure cleanup (C10) -/

/-- **C1.** Single active session invariant: a second `start()` on the
publisher without an intervening stop/failure — and, in general, any
`start()` while not disconnected — rejects with the "already active" error
and returns the state unchanged (status, descriptor and resources of the
first session untouched); a second `connect()` on the data-stream client
while its `EventSource` is live — and, in general, any `connect()` while
connected or holding an `EventSource` — rejects with the already-connected
error and leaves the state (connection flag, event source, logs) unchanged. -/
theorem single_active_session
    (st : PubState) (pipeline pipeline2 : String)
    (resp : StreamStartResponse) (outcome2 : Except JsThrown StreamStartResponse)
    (hst : st.connectionStatus = .disconnected)
    (d : DataStreamState) (mo mo2 : Option ℕ)
    (hd1 : d.isConnected = false) (hd2 : d.hasEventSource = false) :
    ((Stream.start st pipeline (.ok resp)).1.connectionStatus = .connected ∧
      Stream.start (Stream.start st pipeline (.ok resp)).1 pipeline2 outcome2 =
        ((Stream.start st pipeline (.ok resp)).1, [], .error alreadyActiveError)) ∧
    (∀ st' : PubState, st'.connectionStatus ≠ .disconnected →
      Stream.start st' pipeline2 outcome2 = (st', [], .error alreadyActiveError)) ∧
    strIncludes alreadyActiveError.message "already active" = true ∧
    ((DataStreamClient.connect d mo).1.hasEventSource = true ∧
      DataStreamClient.connect (DataStreamClient.connect d mo).1 mo2 =
        ((DataStreamClient.connect d mo).1, .error alreadyConnectedMessage)) ∧
    (∀ d' : DataStreamState, d'.isConnected = true ∨ d'.hasEventSource = true →
      DataStreamClient.connect d' mo2 = (d', .error alreadyConnectedMessage)) := by
  refine ⟨⟨?_, ?_⟩, ?_, by decide, ⟨?_, ?_⟩, ?_⟩
  · simp [Stream.start, hst]
  · simp [Stream.start, hst]
  · intro st' hne
    simp [Stream.start, hne]
  · simp [DataStreamClient.connect, hd1, hd2]
  · simp [DataStreamClient.connect, hd1, hd2]
  · intro d' hd'
    rcases hd' with h | h <;> simp [DataStreamClient.connect, h]

/-- Witness for C1: concrete fresh publisher and data-stream states. -/
theorem single_active_session_witness :
    (Stream.start
        (Stream.start { } "p" (.ok ⟨"sid", "w", "e", "r", "ro", "u", "s", "d", "st"⟩)).1
        "p" (.ok ⟨"sid", "w", "e", "r", "ro", "u", "s", "d", "st"⟩)).2.2 =
      .error alreadyActiveError ∧
    (DataStreamClient.connect (DataStreamClient.connect { } (some 2)).1 none).2 =
      .error alreadyConnectedMessage := by
  have h := single_active_session { } "p" "p"
    ⟨"sid", "w", "e", "r", "ro", "u", "s", "d", "st"⟩
    (.ok ⟨"sid", "w", "e", "r", "ro", "u", "s", "d", "st"⟩) rfl
    { } (some 2) none rfl rfl
  exact ⟨by rw [h.1.2], by rw [h.2.2.2.1.2]⟩

/-- **C10.** Whenever the publisher's `start()` rejects (the guard path
aside), full cleanup has already run before the rejection is delivered: the
stats timer is cleared, the peer connection closed and nulled, local tracks
stopped, the descriptor nulled, and the final status is `disconnected`
(cleanup overwrites the transient `error` status), so an immediately
following `start()` on the same instance is not rejected by the
already-active guard. -/
theorem start_failure_cleanup (st : PubState) (pipeline : String) (e : JsThrown)
    (hst : st.connectionStatus = .disconnected) :
    (Stream.start st pipeline (.error e)).1.statsInterval = false ∧
    (Stream.start st pipeline (.error e)).1.peerConnection = false ∧
    (Stream.start st pipeline (.error e)).1.localStream = false ∧
    (Stream.start st pipeline (.error e)).1.streamInfo = none ∧
    (Stream.start st pipeline (.error e)).1.connectionStatus = .disconnected ∧
    (st.statsInterval = true →
      CleanupAction.clearStatsTimer ∈ (Stream.start st pipeline (.error e)).2.1) ∧
    (st.peerConnection = true →
      CleanupAction.closePeerConnection ∈ (Stream.start st pipeline (.error e)).2.1) ∧
    (st.localStream = true →
      CleanupAction.stopLocalTracks ∈ (Stream.start st pipeline (.error e)).2.1) ∧
    (Stream.start st pipeline (.error e)).2.2 = .error (wrapStartError e) ∧
    (∀ resp, (Stream.start (Stream.start st pipeline (.error e)).1 pipeline
        (.ok resp)).2.2 = .ok resp) := by
  refine ⟨?_, ?_, ?_, ?_, ?_, ?_, ?_, ?_, ?_, ?_⟩ <;>
    first
      | (intro h; simp [Stream.start, Stream.cleanup, hst, h])
      | simp [Stream.start, Stream.cleanup, hst]

/-- Witness for C10: a failing start on a state holding every resource. -/
theorem start_failure_cleanup_witness :
    (Stream.start
        { connectionStatus := .disconnected, streamInfo := none,
          currentPipeline := none, statsInterval := true,
          peerConnection := true, localStream := true, configResp := none }
        "p" (.error (.plain "boom"))).1.connectionStatus = .disconnected ∧
    CleanupAction.stopLocalTracks ∈
      (Stream.start
        { connectionStatus := .disconnected, streamInfo := none,
          currentPipeline := none, statsInterval := true,
          peerConnection := true, localStream := true, configResp := none }
        "p" (.error (.plain "boom"))).2.1 := by
  have h := start_failure_cleanup
    { connectionStatus := .disconnected, streamInfo := none,
      currentPipeline := none, statsInterval := true,
      peerConnection := true, localStream := true, configResp := none }
    "p" (.plain "boom") rfl
  exact ⟨h.2.2.2.2.1, h.2.2.2.2.2.2.2.1 rfl⟩

/-! ## Endpoint resolution round-trip (C7) -/

/-- **C7.** For a recorded session descriptor, every descriptor-derived
resolver getter on the configuration returns exactly the stored field value
verbatim (in particular for descriptors with non-empty fields); with no
descriptor recorded, every such getter returns the empty string.  The
getters are total Lean functions, so they never throw. -/
theorem streamConfig_resolver_roundtrip (c : StreamConfig)
    (d : StreamStartResponse) :
    (c.streamStartResponse = some d →
      c.getStreamStopUrl = d.stopUrl ∧
      c.getWhipUrl = d.whipUrl ∧
      c.getWhepUrl = d.whepUrl ∧
      c.getDataUrl = d.dataUrl ∧
      c.getStatusUrl = d.statusUrl ∧
      c.getUpdateUrl = d.updateUrl ∧
      c.getRtmpUrl = d.rtmpUrl ∧
      c.getRtmpOutputUrl = d.rtmpOutputUrl) ∧
    (c.streamStartResponse = none →
      c.getStreamStopUrl = "" ∧
      c.getWhipUrl = "" ∧
      c.getWhepUrl = "" ∧
      c.getDataUrl = "" ∧
      c.getStatusUrl = "" ∧
      c.getUpdateUrl = "" ∧
      c.getRtmpUrl = "" ∧
      c.getRtmpOutputUrl = "") := by
  constructor <;> intro h <;>
    simp [StreamConfig.getStreamStopUrl, StreamConfig.getWhipUrl,
      StreamConfig.getWhepUrl, StreamConfig.getDataUrl,
      StreamConfig.getStatusUrl, StreamConfig.getUpdateUrl,
      StreamConfig.getRtmpUrl, StreamConfig.getRtmpOutputUrl, h]

/-- Witness for C7: a concrete descriptor with non-empty fields resolves to
its stored values; a fresh configuration resolves everything to "". -/
theorem streamConfig_resolver_roundtrip_witness :
    ({ gatewayUrl := "https://gw"
       streamStartResponse := some
         ⟨"sid", "https://gw/whip", "https://gw/whep", "rtmp://in", "rtmp://out",
          "https://gw/update", "https://gw/status", "https://gw/data",
          "https://gw/stop"⟩ } : StreamConfig).getStreamStopUrl =
      "https://gw/stop" ∧
    ({ gatewayUrl := "https://gw" } : StreamConfig).getWhipUrl = "" := by
  refine ⟨?_, ?_⟩
  · exact ((streamConfig_resolver_roundtrip
      { gatewayUrl := "https://gw"
        streamStartResponse := some
          ⟨"sid", "https://gw/whip", "https://gw/whep", "rtmp://in", "rtmp://out",
           "https://gw/update", "https://gw/status", "https://gw/data",
           "https://gw/stop"⟩ }
      ⟨"sid", "https://gw/whip", "https://gw/whep", "rtmp://in", "rtmp://out",
       "https://gw/update", "https://gw/status", "https://gw/data",
       "https://gw/stop"⟩).1 rfl).1
  · exact ((streamConfig_resolver_roundtrip
      { gatewayUrl := "https://gw" }
      ⟨"", "", "", "", "", "", "", "", ""⟩).2 rfl).2.1

/-! ## Substring lemmas (shared helpers)

The error-path claims say the status code and the response body are
"embedded" in the error message; these lemmas let us conclude
`strIncludes message part = true` from the concatenation structure of the
message. -/

/-- A list contains the prefix of itself followed by anything. -/
lemma charsContain_prefix (p y : List Char) : charsContain p (p ++ y) = true := by
  cases hp : p ++ y with
  | nil =>
    have hpn : p = [] := (List.append_eq_nil.mp hp).1
    subst hpn
    simp_all [charsContain]
  | cons c cs =>
    have hpre : p.isPrefixOf (p ++ y) = true := by
      rw [List.isPrefixOf_iff_prefix]
      exact List.prefix_append p y
    rw [hp] at hpre
    rw [charsContain, hpre, Bool.true_or]

/-- A list contains any middle slice of itself. -/
lemma charsContain_middle (x p y : List Char) :
    charsContain p (x ++ (p ++ y)) = true := by
  induction x with
  | nil => simpa using charsContain_prefix p y
  | cons c cs ih =>
    rw [List.cons_append, charsContain, ih, Bool.or_true]

/-- Reduce a substring-containment goal to the concatenation structure of
the string. -/
lemma strIncludes_of_data_eq (s p x y : String)
    (h : s.data = x.data ++ (p.data ++ y.data)) : strIncludes s p = true := by
  unfold strIncludes
  rw [h]
  exact charsContain_middle _ _ _

/-! ## Stop-stream classification (C5) -/

/-- **C5.** `stopStream` issues a POST with no body; any 2xx response yields
`true`; a 404 yields `false` (already stopped is not an error); any other
non-2xx response throws, with the HTTP status (and the body, when readable
and non-empty) embedded in the error message. -/
theorem stopStream_classification (url : String) (r : HttpResponse) :
    stopStreamRequest url = { url := url, method := "POST", body := none, headers := [] } ∧
    (r.ok = true → stopStream (.ok r) = .ok true) ∧
    (r.status = 404 → stopStream (.ok r) = .ok false) ∧
    (r.ok = false → r.status ≠ 404 →
      stopStream (.ok r) = .error (stopStreamErrorMessage r) ∧
      strIncludes (stopStreamErrorMessage r) (toString r.status) = true ∧
      (r.bodyReadable = true → r.body ≠ "" →
        strIncludes (stopStreamErrorMessage r) r.body = true)) := by
  refine ⟨rfl, ?_, ?_, ?_⟩
  · intro h; simp [stopStream, h]
  · intro h
    have hok : r.ok = false := by
      simp only [HttpResponse.ok, h]
      decide
    simp [stopStream, h, hok]
  · intro h h4
    refine ⟨by simp [stopStream, h, h4], ?_, ?_⟩
    · simp only [stopStreamErrorMessage]
      by_cases hb : (if r.bodyReadable then r.body else "") = ""
      · rw [if_neg (by simpa using hb)]
        exact strIncludes_of_data_eq _ _ "Failed to stop stream (" ")" (by simp)
      · rw [if_pos (by simpa using hb)]
        exact strIncludes_of_data_eq _ _ "Failed to stop stream ("
          ("): " ++ (if r.bodyReadable then r.body else "")) (by simp)
    · intro hr hb
      unfold stopStreamErrorMessage
      simp only [hr, if_true]
      rw [if_pos hb]
      exact strIncludes_of_data_eq _ _
        ("Failed to stop stream (" ++ toString r.status ++ "): ") "" (by simp)

/-- Witness for C5: concrete 204, 404 and 500 responses. -/
theorem stopStream_classification_witness :
    stopStream (.ok ⟨204, "", true, []⟩) = .ok true ∧
    stopStream (.ok ⟨404, "", true, []⟩) = .ok false ∧
    stopStream (.ok ⟨500, "oops", true, []⟩) =
      .error (stopStreamErrorMessage ⟨500, "oops", true, []⟩) := by
  refine ⟨?_, ?_, ?_⟩
  · exact (stopStream_classification "u" ⟨204, "", true, []⟩).2.1 (by decide)
  · exact (stopStream_classification "u" ⟨404, "", true, []⟩).2.2.1 rfl
  · exact ((stopStream_classification "u" ⟨500, "oops", true, []⟩).2.2.2
      (by decide) (by decide)).1

/-! ## WHIP/WHEP success classification (C3)

The claim as frozen says WHEP success is exactly status 200; the source
tests `response.ok`, so any 2xx response — e.g. 201 — is a success.  The
frozen claim also lists a session id among the headers extracted on
success; neither send path reads a session-id header (WHIP reads Location,
ETag, Link and the playback-URL header; WHEP reads Location only). -/

/-- Counterexample to C3 as stated: a WHEP response with status 201 (≠ 200)
is treated as success by `sendWhepOffer`'s attempt body. -/
theorem whep_status201_success_counterexample :
    whepAttempt (.ok ⟨201, "sdp-answer", true, []⟩) =
      .ok ⟨201, "sdp-answer", none⟩ ∧ (201 : ℕ) ≠ 200 := by
  exact ⟨rfl, by decide⟩

/-- **C3 (amended).** `sendWhipOffer` treats a response as success exactly
when its status is 201, and `sendWhepOffer` exactly when its status is 2xx
(`response.ok`); on success the body is returned as the answer SDP and the
headers each path reads (WHIP: Location, ETag, Link, playback URL; WHEP:
Location) are extracted, absent headers mapping to `none`, with no
exception raised. -/
theorem whip_whep_success_classification (r : HttpResponse) :
    (r.status = 201 →
      whipAttempt (.ok r) =
        .ok ⟨r.status, r.body, headerGet r.headers "Location",
          headerGet r.headers "ETag", headerGet r.headers "Link",
          headerGet r.headers "Livepeer-Playback-Url"⟩) ∧
    (r.status ≠ 201 → (whipAttempt (.ok r)).isOk = false) ∧
    (r.ok = true →
      whepAttempt (.ok r) =
        .ok ⟨r.status, r.body, headerGet r.headers "Location"⟩) ∧
    (r.ok = false → (whepAttempt (.ok r)).isOk = false) := by
  refine ⟨?_, ?_, ?_, ?_⟩ <;> intro h <;>
    simp [whipAttempt, whepAttempt, Except.isOk, Except.toBool, h]

/-- Witness for C3: a 201 WHIP response with a Location header but no ETag
succeeds with the header values extracted (absent ones `none`); a 404 WHEP
response is not a success. -/
theorem whip_whep_success_classification_witness :
    whipAttempt (.ok ⟨201, "sdp", true, [("Location", "loc")]⟩) =
      .ok ⟨201, "sdp", some "loc", none, none, none⟩ ∧
    (whepAttempt (.ok ⟨404, "", true, []⟩)).isOk = false := by
  constructor
  · exact (whip_whep_success_classification
      ⟨201, "sdp", true, [("Location", "loc")]⟩).1 rfl
  · exact (whip_whep_success_classification ⟨404, "", true, []⟩).2.2.2 (by decide)

/-! ## WHIP/WHEP error classification (C4)

The claim as frozen says network-layer errors are left retryable; the
source explicitly marks a thrown fetch error whose message contains
`'Network'` as non-retryable (in both send paths), so only network errors
not mentioning `'Network'` stay retryable. -/

/-- Counterexample to C4 as stated: a network-layer fetch error with
message "Network request failed" is marked non-retryable by the WHIP send
path (and likewise by WHEP). -/
theorem whip_network_error_nonretryable_counterexample :
    whipAttempt (.error "Network request failed") =
      .error ⟨"Network request failed", true⟩ ∧
    whepAttempt (.error "Network request failed") =
      .error ⟨"Network request failed", true⟩ ∧
    (⟨"Network request failed", true⟩ : RetryError).nonRetryable ≠ false := by
  exact ⟨rfl, rfl, by decide⟩

/-- **C4 (amended).** In the WHIP and WHEP send paths every non-success
response produces an error embedding the HTTP status and, when readable and
non-empty, the response body; the error is non-retryable exactly for
statuses 400–499 (5xx stays retryable); a network-layer error is marked
non-retryable exactly when its message contains `'Network'`, and is left
retryable otherwise. -/
theorem whip_whep_error_classification (r : HttpResponse) (m : String) :
    (r.status ≠ 201 →
      whipAttempt (.ok r) =
        .error ⟨whipErrorMessage r, decide (400 ≤ r.status ∧ r.status < 500)⟩ ∧
      strIncludes (whipErrorMessage r) (toString r.status) = true ∧
      (r.bodyReadable = true → r.body ≠ "" →
        strIncludes (whipErrorMessage r) r.body = true)) ∧
    (r.ok = false →
      whepAttempt (.ok r) =
        .error ⟨whepErrorMessage r, decide (400 ≤ r.status ∧ r.status < 500)⟩ ∧
      strIncludes (whepErrorMessage r) (toString r.status) = true ∧
      (r.bodyReadable = true → r.body ≠ "" →
        strIncludes (whepErrorMessage r) r.body = true)) ∧
    whipAttempt (.error m) = .error ⟨m, strIncludes m "Network"⟩ ∧
    whepAttempt (.error m) = .error ⟨m, strIncludes m "Network"⟩ := by
  refine ⟨?_, ?_, rfl, rfl⟩
  · intro h
    refine ⟨by simp [whipAttempt, h], ?_, ?_⟩
    · simp only [whipErrorMessage]
      by_cases hb : (if r.bodyReadable then r.body else "") = ""
      · rw [if_neg (by simpa using hb)]
        exact strIncludes_of_data_eq _ _ "WHIP offer failed. Status: " "" (by simp)
      · rw [if_pos (by simpa using hb)]
        exact strIncludes_of_data_eq _ _ "WHIP offer failed. Status: "
          (", Response: " ++ (if r.bodyReadable then r.body else "")) (by simp)
    · intro hr hb
      simp only [whipErrorMessage, hr, if_true]
      rw [if_pos hb]
      exact strIncludes_of_data_eq _ _
        ("WHIP offer failed. Status: " ++ toString r.status ++ ", Response: ") ""
        (by simp)
  · intro h
    refine ⟨by simp [whepAttempt, h], ?_, ?_⟩
    · simp only [whepErrorMessage]
      by_cases hb : (if r.bodyReadable then r.body else "") = ""
      · rw [if_neg (by simpa using hb)]
        exact strIncludes_of_data_eq _ _ "WHEP offer failed. Status: " "" (by simp)
      · rw [if_pos (by simpa using hb)]
        exact strIncludes_of_data_eq _ _ "WHEP offer failed. Status: "
          (", Response: " ++ (if r.bodyReadable then r.body else "")) (by simp)
    · intro hr hb
      simp only [whepErrorMessage, hr, if_true]
      rw [if_pos hb]
      exact strIncludes_of_data_eq _ _
        ("WHEP offer failed. Status: " ++ toString r.status ++ ", Response: ") ""
        (by simp)

/-- Witness for C4: a 404 WHIP response yields a non-retryable error with
status and body embedded; a 503 WHEP response stays retryable; a network
error without 'Network' in its message stays retryable. -/
theorem whip_whep_error_classification_witness :
    whipAttempt (.ok ⟨404, "nope", true, []⟩) =
      .error ⟨whipErrorMessage ⟨404, "nope", true, []⟩, true⟩ ∧
    strIncludes (whipErrorMessage ⟨404, "nope", true, []⟩) "nope" = true ∧
    whepAttempt (.ok ⟨503, "", true, []⟩) =
      .error ⟨whepErrorMessage ⟨503, "", true, []⟩, false⟩ ∧
    whipAttempt (.error "connection reset") =
      .error ⟨"connection reset", false⟩ := by
  have h404 := (whip_whep_error_classification ⟨404, "nope", true, []⟩ "x").1
    (by decide)
  have h503 := (whip_whep_error_classification ⟨503, "", true, []⟩ "x").2.1
    (by decide)
  have hnet := (whip_whep_error_classification ⟨200, "", true, []⟩
    "connection reset").2.2.1
  refine ⟨?_, h404.2.2 rfl (by decide), ?_, ?_⟩
  · simpa using h404.1
  · simpa using h503.1
  · simpa using hnet

/-! ## Immutable-field stripping on update (C6) -/

/-- The stripping loop removes exactly the `width` and `height` entries of
the parameter record. -/
lemma stripImmutable_characterization (params : UpdateParams) :
    (stripImmutable params).1 =
      (params.filter fun p => p.1 ≠ "width").filter fun p => p.1 ≠ "height" := by
  have hstep : ∀ (acc : UpdateParams × List String) (field : String),
      (if acc.1.any (fun p => p.1 = field) then
          (acc.1.filter (fun p => p.1 ≠ field), acc.2 ++ [field])
        else acc).1 = acc.1.filter (fun p => p.1 ≠ field) := by
    intro acc field
    split
    · rfl
    · next h =>
      have h' : ∀ p ∈ acc.1, ¬ p.1 = field := by
        intro p hp hcontra
        exact h (List.any_eq_true.mpr ⟨p, hp, by simpa using hcontra⟩)
      exact (List.filter_eq_self.mpr (fun a ha => by simpa using h' a ha)).symm
  simp only [stripImmutable, immutableFields, List.foldl]
  rw [hstep]
  congr 1
  simpa using hstep (params, []) "width"

/-- **C6.** `update` strips the immutable fields `width` and `height` from
the supplied params before sending: with an active stream, when nothing
mutable remains the call rejects with the `INVALID_UPDATE_PARAMS` error and
issues no network call (`Except.error` means `sendStreamUpdate` was never
invoked); otherwise exactly the remaining mutable parameters are sent to the
stored update endpoint. -/
theorem stream_update_strips_immutable
    (st : PubState) (defaultPipeline : Option String)
    (info : StreamStartResponse) (pipe : String) (params : UpdateParams)
    (hinfo : st.streamInfo = some info)
    (hurl : info.updateUrl ≠ "") (hid : info.streamId ≠ "")
    (hpipe : resolveActivePipeline st.currentPipeline defaultPipeline "update" =
      .ok pipe) :
    (stripImmutable params).1 =
      ((params.filter fun p => p.1 ≠ "width").filter fun p => p.1 ≠ "height") ∧
    ((stripImmutable params).1 = [] →
      Stream.update st defaultPipeline params = .error invalidUpdateParamsError ∧
      invalidUpdateParamsError.code = some "INVALID_UPDATE_PARAMS") ∧
    ((stripImmutable params).1 ≠ [] →
      Stream.update st defaultPipeline params =
        .ok ⟨info.updateUrl, info.streamId, pipe, (stripImmutable params).1⟩) := by
  refine ⟨stripImmutable_characterization params, ?_, ?_⟩
  · intro h
    exact ⟨by simp [Stream.update, hinfo, hurl, hid, h], rfl⟩
  · intro h
    simp [Stream.update, hinfo, hurl, hid, h, hpipe]

/-- Witness for C6: with an active session, `{width:1920, height:1080}`
rejects with `INVALID_UPDATE_PARAMS`, and `{width:1920, prompts:"x"}` sends
exactly `{prompts:"x"}`. -/
theorem stream_update_strips_immutable_witness :
    Stream.update
      { connectionStatus := .connected,
        streamInfo := some ⟨"sid", "w", "e", "r", "ro", "u", "s", "d", "st"⟩,
        currentPipeline := some "p" } none
      [("width", .num 1920), ("height", .num 1080)] =
      .error invalidUpdateParamsError ∧
    Stream.update
      { connectionStatus := .connected,
        streamInfo := some ⟨"sid", "w", "e", "r", "ro", "u", "s", "d", "st"⟩,
        currentPipeline := some "p" } none
      [("width", .num 1920), ("prompts", .str "x")] =
      .ok ⟨"u", "sid", "p", [("prompts", .str "x")]⟩ := by
  constructor
  · exact ((stream_update_strips_immutable
      { connectionStatus := .connected,
        streamInfo := some ⟨"sid", "w", "e", "r", "ro", "u", "s", "d", "st"⟩,
        currentPipeline := some "p" } none
      ⟨"sid", "w", "e", "r", "ro", "u", "s", "d", "st"⟩ "p"
      [("width", .num 1920), ("height", .num 1080)]
      rfl (by decide) (by decide) rfl).2.1 (by decide)).1
  · have h := (stream_update_strips_immutable
      { connectionStatus := .connected,
        streamInfo := some ⟨"sid", "w", "e", "r", "ro", "u", "s", "d", "st"⟩,
        currentPipeline := some "p" } none
      ⟨"sid", "w", "e", "r", "ro", "u", "s", "d", "st"⟩ "p"
      [("width", .num 1920), ("prompts", .str "x")]
      rfl (by decide) (by decide) rfl).2.2 (by decide)
    simpa using h

/-! ## Stats delta computation (C8)

The claim as frozen says that on the first tick (no prior sample) the
reported resolution is the empty string.  The source sets `resolution`
from the current entry's `frameWidth`/`frameHeight` whenever both are
present and non-zero, independently of whether a prior sample exists; only
the bitrate/fps computation is guarded by `lastStats.time > 0`. -/

/-- JavaScript rounding of an integer-valued quantity is the identity. -/
lemma jsRound_intCast (n : ℤ) : jsRound (n : ℚ) = n := by
  unfold jsRound
  rw [add_comm, Int.floor_add_int]
  norm_num

/-- Counterexample to C8 as stated: on the very first tick (prior sample
time 0) a stats entry carrying 640×480 dimensions reports resolution
"640x480", not the empty string (bitrate and fps are 0 as claimed). -/
theorem parseStats_first_tick_resolution_counterexample :
    (Stream.parseStats none ⟨0, 0, 0, 0⟩ 5000
      [⟨"outbound-rtp", "video", some 100, some 30, some 640, some 480⟩]).1 =
      ⟨0, 0, "640x480", none⟩ ∧ ("640x480" : String) ≠ "" := by
  exact ⟨rfl, by decide⟩

/-- **C8 (amended).** Given two samples 1000 ms apart whose cumulative byte
and frame counters differ by `D` and `F`, `parseStats` reports
`bitrate = round(D*8/1000)` and `fps = round(F) = F`, and overwrites the
running snapshot with the current counters; when no prior sample exists
(`lastStats.time = 0`), bitrate and fps are 0, and the reported resolution
comes from the current entry alone — `"WxH"` when it carries non-zero frame
dimensions and `""` otherwise (for any prior sample state). -/
theorem parseStats_delta (si : Option StreamStartResponse) (last : LastStats)
    (D F : ℤ) (w h : Option ℕ) (hlast : 0 < last.time) :
    ((Stream.parseStats si last (last.time + 1000)
        [⟨"outbound-rtp", "video", some (last.bytes + D),
          some (last.frameCount + F), w, h⟩]).1.bitrate =
      jsRound ((D : ℚ) * 8 / 1000) ∧
     (Stream.parseStats si last (last.time + 1000)
        [⟨"outbound-rtp", "video", some (last.bytes + D),
          some (last.frameCount + F), w, h⟩]).1.fps = F ∧
     (Stream.parseStats si last (last.time + 1000)
        [⟨"outbound-rtp", "video", some (last.bytes + D),
          some (last.frameCount + F), w, h⟩]).2 =
       ⟨last.time + 1000, last.bytes + D, 0, last.frameCount + F⟩) ∧
    (∀ (last0 : LastStats) (stat0 : RtcStat) (now : ℤ), last0.time = 0 →
      (Stream.parseStats si last0 now [stat0]).1.bitrate = 0 ∧
      (Stream.parseStats si last0 now [stat0]).1.fps = 0) ∧
    (∀ (lastAny : LastStats) (stat0 : RtcStat) (now : ℤ),
      (stat0.type = "outbound-rtp" → stat0.kind = "video" →
        stat0.frameWidth.getD 0 ≠ 0 → stat0.frameHeight.getD 0 ≠ 0 →
        (Stream.parseStats si lastAny now [stat0]).1.resolution =
          toString (stat0.frameWidth.getD 0) ++ "x" ++
            toString (stat0.frameHeight.getD 0)) ∧
      ((stat0.frameWidth.getD 0 = 0 ∨ stat0.frameHeight.getD 0 = 0) →
        (Stream.parseStats si lastAny now [stat0]).1.resolution = "")) := by
  have htd : (((last.time + 1000 : ℤ) : ℚ) - ((last.time : ℤ) : ℚ)) / 1000 = 1 := by
    push_cast
    ring
  have hby : ((last.bytes + D : ℤ) : ℚ) - ((last.bytes : ℤ) : ℚ) = (D : ℚ) := by
    push_cast
    ring
  have hfr : ((last.frameCount + F : ℤ) : ℚ) - ((last.frameCount : ℤ) : ℚ) = (F : ℚ) := by
    push_cast
    ring
  have h01 : (0 : ℚ) < 1 := by norm_num
  refine ⟨⟨?_, ?_, ?_⟩, ?_, ?_⟩
  · simp [Stream.parseStats, parseStatsStep, htd, hlast, h01, hby, hfr,
      jsRound_intCast, apply_ite]
  · simp [Stream.parseStats, parseStatsStep, htd, hlast, h01, hby, hfr,
      jsRound_intCast, apply_ite]
  · simp [Stream.parseStats, parseStatsStep, htd, hlast, h01, hby, hfr,
      jsRound_intCast, apply_ite]
  · intro last0 stat0 now h0
    constructor <;> simp [Stream.parseStats, parseStatsStep, h0, apply_ite]
  · intro lastAny stat0 now
    constructor
    · intro h1 h2 h3 h4
      simp [Stream.parseStats, parseStatsStep, h1, h2, h3, h4, apply_ite]
    · intro hwh
      rcases hwh with hz | hz <;>
        simp [Stream.parseStats, parseStatsStep, hz, apply_ite]

/-- Witness for C8: two samples 1 s apart with a byte delta of 2000 and a
frame delta of 30 report 16 kbps and 30 fps; a first tick with no
dimensions reports 0/0 and an empty resolution. -/
theorem parseStats_delta_witness :
    (Stream.parseStats none ⟨1000, 1000, 0, 10⟩ 2000
      [⟨"outbound-rtp", "video", some 3000, some 40, some 640, some 480⟩]).1.bitrate =
      jsRound ((2000 : ℚ) * 8 / 1000) ∧
    (Stream.parseStats none ⟨0, 0, 0, 0⟩ 5000
      [⟨"outbound-rtp", "video", some 100, some 30, none, none⟩]).1.bitrate = 0 ∧
    (Stream.parseStats none ⟨0, 0, 0, 0⟩ 5000
      [⟨"outbound-rtp", "video", some 100, some 30, none, none⟩]).1.resolution = "" := by
  have h := parseStats_delta none ⟨1000, 1000, 0, 10⟩ 2000 30 (some 640) (some 480)
    (by norm_num)
  refine ⟨h.1.1, ?_, ?_⟩
  · exact (h.2.1 ⟨0, 0, 0, 0⟩ ⟨"outbound-rtp", "video", some 100, some 30, none, none⟩
      5000 rfl).1
  · exact (h.2.2 ⟨0, 0, 0, 0⟩ ⟨"outbound-rtp", "video", some 100, some 30, none, none⟩
      5000).2 (Or.inl rfl)

/-! ## Data-stream log eviction (C9) -/

/-- **C9.** Every received message (valid JSON or parse failure alike)
appends exactly one log entry, evicting exactly the oldest entry when the
bound would be exceeded (FIFO), so a buffer within its bound stays within
its bound; and concretely, connecting with `maxLogs = 2` and delivering 3
sequential valid messages leaves exactly the 2nd and 3rd entries, in
arrival order. -/
theorem dataStream_log_eviction :
    (∀ (st : DataStreamState) (m : SseParse) (now : ℤ),
      (DataStreamClient.onMessage st m now).logs =
        (if st.maxLogs < st.logs.length + 1 then
          (st.logs ++ [DataStreamClient.mkLog st.logCounter m now]).tail
         else st.logs ++ [DataStreamClient.mkLog st.logCounter m now]) ∧
      (DataStreamClient.onMessage st m now).logCounter = st.logCounter + 1 ∧
      (st.logs.length ≤ st.maxLogs →
        (DataStreamClient.onMessage st m now).logs.length ≤ st.maxLogs)) ∧
    (DataStreamClient.onMessage (DataStreamClient.onMessage
        (DataStreamClient.onMessage (DataStreamClient.connect { } (some 2)).1
          (.parsed (some "data") (.str "p1")) 10)
        (.parsed (some "data") (.str "p2")) 11)
      (.parsed (some "data") (.str "p3")) 12).logs =
      [⟨"data-1", "data", .json (some "data") (.str "p2"), 11, true⟩,
       ⟨"data-2", "data", .json (some "data") (.str "p3"), 12, true⟩] := by
  refine ⟨?_, by decide⟩
  intro st m now
  refine ⟨?_, rfl, ?_⟩
  · simp [DataStreamClient.onMessage, pushLog]
  · intro hle
    simp only [DataStreamClient.onMessage, pushLog]
    split
    · next hgt =>
      simp only [List.length_tail, List.length_append, List.length_singleton]
      omega
    · next hgt =>
      simp only [List.length_append, List.length_singleton] at hgt ⊢
      omega

/-- Witness for C9: a full two-entry buffer stays at two entries after one
more message. -/
theorem dataStream_log_eviction_witness :
    (DataStreamClient.onMessage
      { isConnected := true, hasEventSource := true,
        logs := [⟨"data-0", "data", .json none .null, 1, true⟩,
                 ⟨"data-1", "data", .json none .null, 2, true⟩],
        maxLogs := 2, logCounter := 2 }
      (.parsed none .null) 3).logs.length ≤ 2 := by
  exact ((dataStream_log_eviction).1
    { isConnected := true, hasEventSource := true,
      logs := [⟨"data-0", "data", .json none .null, 1, true⟩,
               ⟨"data-1", "data", .json none .null, 2, true⟩],
      maxLogs := 2, logCounter := 2 }
    (.parsed none .null) 3).2.2 (by decide)

end ByocSdk
